import Mathlib

/-!
Verification development for the MoveHub booking admission-control and
pricing core.  The repository ships the TypeScript frontend together with
type declarations mirroring the backend Pydantic schemas
(`src/unnamed/part_002`) and documentation of the backend services; the
Python backend services themselves (ConflictGuard, PricingEngine,
BookingStateMachine, CancellationPolicy) are not part of the checked-in
sources, so those components are modelled from the specification and
clearly marked as such.  Frontend components under
`src/frontend/src` (booking form validation, the ReviewStep price
estimate, the Step3Quote card) are embedded directly from their sources.

Money amounts are modelled as rational numbers; timestamps as integer
minutes since an arbitrary epoch.
-/

namespace MoveHub

/-! ## Time windows and the conflict guard -/

/-- Modelled from the spec: `TimeWindow` — a half-open interval `[start, end)`
in UTC with a symmetric commute buffer (`bufferMinutes`) that produces the
derived effective interval.  Timestamps are minutes since an epoch.  The
backend implementation is not among the checked-in sources. -/
structure TimeWindow where
  start : Int
  endTime : Int
  bufferMinutes : Int
  deriving DecidableEq, Repr

/-- Modelled from the spec: `effectiveStart` pads the commute buffer before
`start`. -/
def TimeWindow.effectiveStart (w : TimeWindow) : Int :=
  w.start - w.bufferMinutes

/-- Modelled from the spec: `effectiveEnd` pads the commute buffer after
`end`. -/
def TimeWindow.effectiveEnd (w : TimeWindow) : Int :=
  w.endTime + w.bufferMinutes

/-- Modelled from the spec: two closed-open intervals `[a,b)` and `[c,d)`
overlap iff `a < d && c < b`; the guard compares effective windows. -/
def windowsOverlap (v w : TimeWindow) : Bool :=
  v.effectiveStart < w.effectiveEnd && w.effectiveStart < v.effectiveEnd

/-- Modelled from the spec: a reservation held by the ConflictGuard: an
opaque id, the resource (truck) id — absent for unassigned bookings — and
the booked time window. -/
structure Reservation where
  id : Nat
  resourceId : Option Nat
  window : TimeWindow
  deriving DecidableEq, Repr

/-- Modelled from the spec: `ConflictError` carries the list of overlapping
reservation ids. -/
structure ConflictError where
  conflictingIds : List Nat
  deriving DecidableEq, Repr

/-- Modelled from the spec: a candidate conflicts with an existing
reservation exactly when both are assigned to the same resource and their
effective windows overlap. -/
def conflictsWith (resourceId : Nat) (w : TimeWindow) (r : Reservation) : Bool :=
  match r.resourceId with
  | some rid => rid == resourceId && windowsOverlap w r.window
  | none => false

/-- Modelled from the spec: `ConflictGuard.reserve` — with no resource
assigned the reservation always succeeds (conflict checking is deferred to
assignment time); otherwise the candidate is checked against every existing
reservation for the same resource and rejected with a `ConflictError`
listing the overlapping reservation ids. -/
def reserve (state : List Reservation) (r : Reservation) :
    Except ConflictError (List Reservation) :=
  match r.resourceId with
  | none => .ok (r :: state)
  | some rid =>
    let conflicts := state.filter (conflictsWith rid r.window)
    if conflicts.isEmpty then .ok (r :: state)
    else .error ⟨conflicts.map (·.id)⟩

/-- Modelled from the spec: releasing a reservation (on cancellation)
removes it from the interval set. -/
def release (state : List Reservation) (id : Nat) : List Reservation :=
  state.filter (fun r => r.id ≠ id)

/-- States of the ConflictGuard reachable from a given starting state by
successful `reserve` calls and `release` calls. -/
inductive GuardReach : List Reservation → List Reservation → Prop
  | refl (s : List Reservation) : GuardReach s s
  | reserveStep {s t u : List Reservation} (r : Reservation)
      (h : GuardReach s t) (hok : reserve t r = .ok u) :
      GuardReach s u
  | releaseStep {s t : List Reservation} (id : Nat)
      (h : GuardReach s t) : GuardReach s (release t id)

/-! ## Booking status state machine -/

/-- Booking statuses, from the frontend type declarations
(`src/unnamed/part_002`, `BookingStatus`). -/
inductive BookingStatus where
  | PENDING
  | CONFIRMED
  | IN_PROGRESS
  | COMPLETED
  | CANCELLED
  deriving DecidableEq, Repr

/-- Modelled from the spec: the fixed transition table —
`PENDING -> CONFIRMED -> IN_PROGRESS -> COMPLETED` with `CANCELLED`
reachable from `PENDING`, `CONFIRMED` and `IN_PROGRESS`; no other
transitions are legal.  The backend state-machine service is not among the
checked-in sources. -/
def validTransitions : List (BookingStatus × BookingStatus) :=
  [ (.PENDING, .CONFIRMED)
  , (.CONFIRMED, .IN_PROGRESS)
  , (.IN_PROGRESS, .COMPLETED)
  , (.PENDING, .CANCELLED)
  , (.CONFIRMED, .CANCELLED)
  , (.IN_PROGRESS, .CANCELLED) ]

/-- Modelled from the spec: `InvalidTransitionError` names both states
(the source error carries `from` and `to`; `from` is a Lean keyword, hence
`fromStatus`/`toStatus`). -/
structure InvalidTransitionError where
  fromStatus : BookingStatus
  toStatus : BookingStatus
  deriving DecidableEq, Repr

/-- An audit-trail row, from the spec data model `BookingStatusHistory`. -/
structure HistoryRow where
  fromStatus : BookingStatus
  toStatus : BookingStatus
  actorId : Nat
  reason : String
  deriving DecidableEq, Repr

/-- A booking reduced to the fields the state machine touches. -/
structure BookingState where
  status : BookingStatus
  history : List HistoryRow
  deriving DecidableEq, Repr

/-- Modelled from the spec: `BookingStateMachine.transition` validates the
pair `(booking.status, toStatus)` against the fixed table; on success it
updates the status and appends one audit row, otherwise it fails with an
`InvalidTransitionError` naming both states. -/
def transition (b : BookingState) (toStatus : BookingStatus)
    (actorId : Nat) (reason : String) :
    Except InvalidTransitionError BookingState :=
  if (b.status, toStatus) ∈ validTransitions then
    .ok { status := toStatus
          history := b.history ++ [⟨b.status, toStatus, actorId, reason⟩] }
  else
    .error ⟨b.status, toStatus⟩

/-! ## Cancellation policy -/

/-- Refund tiers of the tiered cancellation policy. -/
inductive RefundTier where
  | full
  | threeQuarters
  | half
  | none
  deriving DecidableEq, Repr

/-- Round a rational amount to two decimal places. -/
def round2 (x : Rat) : Rat :=
  (round (x * 100) : Int) / 100

/-- Modelled from the spec: `RefundDecision` — the tier applied, the
refund fraction, and the rounded refund amount. -/
structure RefundDecision where
  tierApplied : RefundTier
  refundFraction : Rat
  refundAmount : Rat
  deriving DecidableEq, Repr

/-- A booking reduced to the fields the cancellation policy reads: its
time window and the total of its price breakdown. -/
structure CancellableBooking where
  window : TimeWindow
  priceTotal : Rat
  deriving DecidableEq, Repr

/-- Modelled from the spec: `hoursUntilMove = (booking.window.start - now)`
in hours; timestamps are in minutes, hence the division by 60. -/
def hoursUntilMove (b : CancellableBooking) (now : Int) : Rat :=
  ((b.window.start - now : Int) : Rat) / 60

/-- Modelled from the spec: `CancellationPolicy.computeRefund` — the tier
table is checked in order, first match wins: `>= 72h -> 1.00`,
`>= 48h -> 0.75`, `>= 24h -> 0.50`, `< 24h -> 0.00`; the refund amount is
`round(total * refundFraction, 2)`.  The backend cancellation service is
not among the checked-in sources. -/
def computeRefund (b : CancellableBooking) (now : Int) : RefundDecision :=
  let h := hoursUntilMove b now
  if 72 ≤ h then
    ⟨.full, 1, round2 (b.priceTotal * 1)⟩
  else if 48 ≤ h then
    ⟨.threeQuarters, 3/4, round2 (b.priceTotal * (3/4))⟩
  else if 24 ≤ h then
    ⟨.half, 1/2, round2 (b.priceTotal * (1/2))⟩
  else
    ⟨.none, 0, round2 (b.priceTotal * 0)⟩

/-! ## Pricing engine -/

/-- A move description reduced to the fields the pricing engine reads,
following the booking creation request of the spec and the
`BookingBase` declaration in `src/unnamed/part_002`. -/
structure Move where
  estimatedDurationHours : Rat
  estimatedDistanceMiles : Rat
  pickupFloors : Nat
  dropoffFloors : Nat
  hasElevatorPickup : Bool
  hasElevatorDropoff : Bool
  specialItems : List String
  moveDayOfWeek : Nat
  moveHour : Nat
  deriving DecidableEq, Repr

/-- Modelled from the spec: the closed tagged-variant rule kinds of
`PricingConfig.surchargeRules` (stairs-per-flight, special-item,
time-of-day multiplier, distance-threshold, custom fixed or percentage).
The backend pricing service is not among the checked-in sources. -/
inductive RuleKind where
  | stairs (ratePerFlight : Rat)
  | specialItem (items : List String) (feePerItem : Rat)
  | timeBased (days : List Nat) (hourLo hourHi : Nat) (multiplier : Rat)
  | distanceThreshold (threshold perExtraMileRate : Rat)
  | customFixed (amount : Rat)
  | customPercent (percent : Rat)
  deriving DecidableEq, Repr

/-- Modelled from the spec: a surcharge rule is a kind plus an `enabled`
flag; the stored list order is the evaluation order. -/
structure SurchargeRule where
  kind : RuleKind
  enabled : Bool
  deriving DecidableEq, Repr

/-- Modelled from the spec and `src/README.md`: the per-organization
pricing configuration. -/
structure PricingConfig where
  baseHourlyRate : Rat
  baseMileageRate : Rat
  minimumCharge : Rat
  surchargeRules : List SurchargeRule
  deriving DecidableEq, Repr

/-- An applied surcharge line, from the `Surcharge` declaration in
`src/unnamed/part_002`. -/
structure Surcharge where
  type : String
  amount : Rat
  description : String
  deriving DecidableEq, Repr

/-- The price breakdown, from the `PriceBreakdown` declaration in
`src/unnamed/part_002`. -/
structure PriceBreakdown where
  baseHourlyCost : Rat
  baseMileageCost : Rat
  surcharges : List Surcharge
  subtotal : Rat
  minimumApplied : Bool
  total : Rat
  deriving DecidableEq, Repr

/-- The price estimate wrapper, from the `PriceEstimate` declaration in
`src/unnamed/part_002`: the amount, the platform fee, and the breakdown. -/
structure PriceEstimate where
  estimatedAmount : Rat
  platformFee : Rat
  breakdown : PriceBreakdown
  deriving DecidableEq, Repr

/-- Sum of the amounts of a list of surcharges. -/
def surchargeSum (l : List Surcharge) : Rat :=
  (l.map (·.amount)).sum

/-- Modelled from the spec: evaluation of one rule kind against a move.
`base` is `baseHourlyCost + baseMileageCost`; `running` is the running
subtotal at the time the rule is evaluated (base plus all surcharges
applied so far).  Stairs apply to pickup and dropoff independently when
`floors > 0` and there is no elevator, at `ratePerFlight * floors` each;
the special-item fee is flat per distinct matching item, deduplicated by
item identity before evaluation; time-based multipliers apply only against
the base; distance threshold charges the excess miles; custom rules are a
fixed amount or a percentage of the running subtotal. -/
def evalRule (move : Move) (base running : Rat) : RuleKind → List Surcharge
  | .stairs ratePerFlight =>
    (if 0 < move.pickupFloors && !move.hasElevatorPickup then
      [⟨"stairs", ratePerFlight * move.pickupFloors, "pickup stairs"⟩]
    else []) ++
    (if 0 < move.dropoffFloors && !move.hasElevatorDropoff then
      [⟨"stairs", ratePerFlight * move.dropoffFloors, "dropoff stairs"⟩]
    else [])
  | .specialItem items feePerItem =>
    let matched := move.specialItems.dedup.filter (fun i => items.contains i)
    if matched.isEmpty then []
    else [⟨"special_item", feePerItem * matched.length, "special items"⟩]
  | .timeBased days hourLo hourHi multiplier =>
    if days.contains move.moveDayOfWeek ||
        (hourLo ≤ move.moveHour && move.moveHour < hourHi) then
      [⟨"time_based", (multiplier - 1) * base, "time of day"⟩]
    else []
  | .distanceThreshold threshold perExtraMileRate =>
    if threshold < move.estimatedDistanceMiles then
      [⟨"distance", (move.estimatedDistanceMiles - threshold) * perExtraMileRate,
        "long distance"⟩]
    else []
  | .customFixed amount => [⟨"custom", amount, "custom fixed"⟩]
  | .customPercent percent =>
    [⟨"custom_percent", percent * running, "custom percentage"⟩]

/-- Modelled from the spec: evaluate the rules strictly in stored order,
skipping disabled rules, threading the running subtotal. -/
def evalRules (move : Move) (base : Rat) :
    List SurchargeRule → Rat → List Surcharge
  | [], _ => []
  | r :: rs, running =>
    if r.enabled then
      let applied := evalRule move base running r.kind
      applied ++ evalRules move base rs (running + surchargeSum applied)
    else
      evalRules move base rs running

/-- Modelled from the spec: `PricingEngine.price` — base costs from the
hourly and mileage rates, surcharges in stored rule order,
`subtotal = baseHourlyCost + baseMileageCost + sum(surcharge.amount)`,
and minimum enforcement on the total. -/
def price (move : Move) (config : PricingConfig) : PriceBreakdown :=
  let baseHourlyCost := config.baseHourlyRate * move.estimatedDurationHours
  let baseMileageCost := config.baseMileageRate * move.estimatedDistanceMiles
  let base := baseHourlyCost + baseMileageCost
  let surcharges := evalRules move base config.surchargeRules base
  let subtotal := base + surchargeSum surcharges
  if subtotal < config.minimumCharge then
    ⟨baseHourlyCost, baseMileageCost, surcharges, subtotal, true,
      config.minimumCharge⟩
  else
    ⟨baseHourlyCost, baseMileageCost, surcharges, subtotal, false, subtotal⟩

/-- Modelled from the spec: the platform fee is `total * platformFeeRate`
for a process-wide rate, reported alongside the breakdown — not added into
`total`. -/
def priceEstimate (platformFeeRate : Rat) (move : Move)
    (config : PricingConfig) : PriceEstimate :=
  let b := price move config
  ⟨b.total, b.total * platformFeeRate, b⟩

/-! ## Frontend booking form validation
(`src/frontend/src/lib/validations/booking.ts`) -/

/-- The booking form data, from `bookingFormSchema` in
`src/frontend/src/lib/validations/booking.ts`.  Dates are integer minutes
since an epoch; floors are integers (zod: `z.number().int()`). -/
structure BookingFormData where
  customer_name : String
  customer_email : String
  customer_phone : String
  move_date : Int
  pickup_address : String
  pickup_city : String
  pickup_state : String
  pickup_zip : String
  pickup_floors : Int
  has_elevator_pickup : Bool
  dropoff_address : String
  dropoff_city : String
  dropoff_state : String
  dropoff_zip : String
  dropoff_floors : Int
  has_elevator_dropoff : Bool
  estimated_distance_miles : Rat
  estimated_duration_hours : Rat
  special_items : List String
  customer_notes : Option String
  deriving DecidableEq, Repr

/-- At least ten characters, all decimal digits — the `\d\x7b10,\x7d$` part
of the phone regex in `booking.ts`. -/
def atLeastTenDigits (cs : List Char) : Bool :=
  decide (10 ≤ cs.length) && cs.all (·.isDigit)

/-- The phone regex after the optional leading `+`: an optional `1`
followed by at least ten digits (`1?\d\x7b10,\x7d$`, with backtracking on
the optional `1`). -/
def phoneAfterPlus (cs : List Char) : Bool :=
  atLeastTenDigits cs ||
    (match cs with
     | '1' :: rest => atLeastTenDigits rest
     | _ => false)

/-- The phone check of `booking.ts`: regex `^\+?1?\d\x7b10,\x7d$`. -/
def phoneOk (s : String) : Bool :=
  match s.data with
  | '+' :: rest => phoneAfterPlus rest
  | cs => phoneAfterPlus cs

/-- The ZIP check of `booking.ts`: regex `^\d\x7b5\x7d(-\d\x7b4\x7d)?$`. -/
def zipOk (s : String) : Bool :=
  let cs := s.data
  (decide (cs.length = 5) && cs.all (·.isDigit)) ||
    (decide (cs.length = 10) && (cs.take 5).all (·.isDigit) &&
      cs.get? 5 == some '-' && (cs.drop 6).all (·.isDigit))

/-- The `bookingFormSchema` checks of
`src/frontend/src/lib/validations/booking.ts`, conjoined.  `emailOk`
abstracts the zod library email format check (`z.string().email()` is
library code, not repository code); `now` is the current time, against
which the schema refines `new Date(date) >= new Date()`. -/
def bookingFormValid (emailOk : String → Bool) (now : Int)
    (fd : BookingFormData) : Bool :=
  decide (2 ≤ fd.customer_name.length) &&
  decide (fd.customer_name.length ≤ 100) &&
  emailOk fd.customer_email &&
  phoneOk fd.customer_phone &&
  decide (now ≤ fd.move_date) &&
  decide (5 ≤ fd.pickup_address.length) &&
  decide (2 ≤ fd.pickup_city.length) &&
  decide (fd.pickup_state.length = 2) &&
  zipOk fd.pickup_zip &&
  decide (0 ≤ fd.pickup_floors) &&
  decide (fd.pickup_floors ≤ 100) &&
  decide (5 ≤ fd.dropoff_address.length) &&
  decide (2 ≤ fd.dropoff_city.length) &&
  decide (fd.dropoff_state.length = 2) &&
  zipOk fd.dropoff_zip &&
  decide (0 ≤ fd.dropoff_floors) &&
  decide (fd.dropoff_floors ≤ 100) &&
  decide (0 < fd.estimated_distance_miles) &&
  decide (0 < fd.estimated_duration_hours)

/-! ## Frontend ReviewStep price estimate
(`src/frontend/src/components/booking/steps/review-step.tsx`)

The component introduces local constants and then computes
`subtotal = hourlyCost + mileageCost + stairsSurcharge +
specialItemsSurcharge`, `platformFee = subtotal * 0.05`,
`total = subtotal + platformFee`.  The constant holding the hourly cost is
declared under the name `hourlyC`, while the subtotal expression reads
`hourlyCost`; the embedding therefore carries the binding environment
explicitly, as an association list from declared names to values, and an
expression reads a name through a lookup that can fail. -/

/-- The stairs surcharge local of `ReviewStep` (lines 21 to 28): rate 50
per flight at pickup and dropoff independently, when floors are positive
and there is no elevator. -/
def reviewStepStairsSurcharge (fd : BookingFormData) : Rat :=
  (if 0 < fd.pickup_floors && !fd.has_elevator_pickup then
    50 * (fd.pickup_floors : Rat) else 0) +
  (if 0 < fd.dropoff_floors && !fd.has_elevator_dropoff then
    50 * (fd.dropoff_floors : Rat) else 0)

/-- The binding environment of `ReviewStep` at line 33, in declaration
order, each constant under the exact name the source declares. -/
def reviewStepEnv (fd : BookingFormData) : List (String × Rat) :=
  [ ("baseHourlyRate", 150)
  , ("baseMileageRate", 5/2)
  , ("hourlyC", 150 * fd.estimated_duration_hours)
  , ("mileageCost", (5/2) * fd.estimated_distance_miles)
  , ("stairsSurcharge", reviewStepStairsSurcharge fd)
  , ("specialItemsSurcharge", (fd.special_items.length : Rat) * 100) ]

/-- Read a name in the `ReviewStep` binding environment. -/
def reviewStepLookup (fd : BookingFormData) (name : String) : Option Rat :=
  (reviewStepEnv fd).lookup name

/-- The `subtotal` expression of `ReviewStep` (line 33):
`hourlyCost + mileageCost + stairsSurcharge + specialItemsSurcharge`,
each name resolved in the binding environment. -/
def reviewStepSubtotal (fd : BookingFormData) : Option Rat := do
  let hourlyCost ← reviewStepLookup fd "hourlyCost"
  let mileageCost ← reviewStepLookup fd "mileageCost"
  let stairsSurcharge ← reviewStepLookup fd "stairsSurcharge"
  let specialItemsSurcharge ← reviewStepLookup fd "specialItemsSurcharge"
  pure (hourlyCost + mileageCost + stairsSurcharge + specialItemsSurcharge)

/-- The `platformFee` expression of `ReviewStep` (line 34):
`subtotal * 0.05`. -/
def reviewStepPlatformFee (fd : BookingFormData) : Option Rat :=
  (reviewStepSubtotal fd).map (fun s => s * (5/100))

/-- The `total` expression of `ReviewStep` (line 35):
`subtotal + platformFee`. -/
def reviewStepTotal (fd : BookingFormData) : Option Rat := do
  let s ← reviewStepSubtotal fd
  let f ← reviewStepPlatformFee fd
  pure (s + f)

/-! ## Frontend Step3Quote
(`src/frontend/src/components/booking/Step3Quote.tsx`) -/

/-- A rendered quote line: label and dollar amount. -/
structure QuoteLine where
  label : String
  amount : Rat
  deriving DecidableEq, Repr

/-- The rendered quote card: estimated total and line items. -/
structure QuoteView where
  estimatedTotal : Rat
  lines : List QuoteLine
  deriving DecidableEq, Repr

/-- The quote rendered by `Step3Quote` (lines 13 to 44): the component
receives `bookingData` (typed `any` in the source, hence the type
parameter) and renders fixed literal amounts, never reading the input. -/
def Step3Quote {α : Type} (_bookingData : α) : QuoteView :=
  ⟨1250,
    [ ⟨"Base Rate (4 hours)", 600⟩
    , ⟨"Mileage (15 miles)", (75 : Rat)/2⟩
    , ⟨"Piano Surcharge", 150⟩
    , ⟨"Platform Fee", (125 : Rat)/2⟩ ]⟩

/-! ## Concrete example inputs (spec §8 scenarios) -/

/-- Scenario 1 move: 4 hours, 10 miles, no stairs, no special items. -/
def exampleMove : Move := ⟨4, 10, 0, 0, true, true, [], 1, 9⟩

/-- Scenario 1 configuration: 150 per hour, 2.50 per mile, zero minimum,
no surcharge rules. -/
def exampleConfig : PricingConfig := ⟨150, 5/2, 0, []⟩

/-- Scenario 2 move: scenario 1 with two pickup flights and no pickup
elevator. -/
def stairsMove : Move :=
  { exampleMove with pickupFloors := 2, hasElevatorPickup := false }

/-- Scenario 2 configuration: scenario 1 plus an enabled 50-per-flight
stairs rule. -/
def stairsConfig : PricingConfig :=
  { exampleConfig with surchargeRules := [⟨.stairs 50, true⟩] }

/-- A configuration whose minimum charge exceeds the scenario 1 subtotal. -/
def minimumConfig : PricingConfig :=
  { exampleConfig with minimumCharge := 1000 }

/-- Scenario 4 booking: the move starts 3000 minutes (50 hours) after
time zero and its price breakdown total is 725. -/
def demoBooking : CancellableBooking := ⟨⟨3000, 3240, 0⟩, 725⟩

/-- A form input satisfying every check of `bookingFormSchema`. -/
def demoForm : BookingFormData :=
  ⟨"John Doe", "jdoe@example.com", "+15551234567", 100,
   "123 Main Street", "Springfield", "IL", "62704", 1, true,
   "456 Oak Avenue", "Shelbyville", "IL", "62565", 0, false,
   10, 4, [], Option.none⟩

/-- A first demo reservation on truck 7: window [0, 60) with a 15 minute
buffer, effective [-15, 75). -/
def demoRes1 : Reservation := ⟨1, some 7, ⟨0, 60, 15⟩⟩

/-- A second demo reservation on truck 7: window [120, 180) with a 15
minute buffer, effective [105, 195) — disjoint from the first. -/
def demoRes2 : Reservation := ⟨2, some 7, ⟨120, 180, 15⟩⟩

/-- The ConflictGuard invariant: no two distinct reservations held for the
same resource have overlapping effective windows. -/
def NoConflicts (s : List Reservation) : Prop :=
  ∀ a ∈ s, ∀ b ∈ s, a ≠ b →
    ∀ rid : Nat, a.resourceId = some rid → b.resourceId = some rid →
      windowsOverlap a.window b.window = false

/-! ## Theorems -/

/-- The subtotal field of a price breakdown, independent of whether the
minimum charge fires. -/
theorem price_subtotal (move : Move) (config : PricingConfig) :
    (price move config).subtotal =
      config.baseHourlyRate * move.estimatedDurationHours +
        config.baseMileageRate * move.estimatedDistanceMiles +
        surchargeSum (evalRules move
          (config.baseHourlyRate * move.estimatedDurationHours +
            config.baseMileageRate * move.estimatedDistanceMiles)
          config.surchargeRules
          (config.baseHourlyRate * move.estimatedDurationHours +
            config.baseMileageRate * move.estimatedDistanceMiles)) := by
  simp only [price]
  split <;> rfl

/-- The surcharges field of a price breakdown, independent of whether the
minimum charge fires. -/
theorem price_surcharges (move : Move) (config : PricingConfig) :
    (price move config).surcharges =
      evalRules move
        (config.baseHourlyRate * move.estimatedDurationHours +
          config.baseMileageRate * move.estimatedDistanceMiles)
        config.surchargeRules
        (config.baseHourlyRate * move.estimatedDurationHours +
          config.baseMileageRate * move.estimatedDistanceMiles) := by
  simp only [price]
  split <;> rfl

/-- Claim C2: for a move of 4 hours and 10 miles with baseHourlyRate 150,
baseMileageRate 2.50, no applicable surcharges and minimumCharge 0, the
price computation yields total 625.00 — the sum of baseHourlyCost,
baseMileageCost and the surcharge amounts (600 + 25) — and the platform
fee is reported separately, never added into the total. -/
theorem price_example_four_hours_ten_miles :
    price exampleMove exampleConfig = ⟨600, 25, [], 625, false, 625⟩ ∧
    (price exampleMove exampleConfig).total =
      (price exampleMove exampleConfig).baseHourlyCost +
        (price exampleMove exampleConfig).baseMileageCost +
        surchargeSum (price exampleMove exampleConfig).surcharges ∧
    ∀ platformFeeRate : Rat,
      (priceEstimate platformFeeRate exampleMove exampleConfig).breakdown.total
        = 625 ∧
      (priceEstimate platformFeeRate exampleMove exampleConfig).platformFee
        = 625 * platformFeeRate := by
  have hb : price exampleMove exampleConfig = ⟨600, 25, [], 625, false, 625⟩ := by
    simp only [price, evalRules, surchargeSum, exampleMove, exampleConfig,
      List.map_nil, List.sum_nil]
    norm_num
  refine ⟨hb, by rw [hb]; norm_num [surchargeSum], fun r => ⟨?_, ?_⟩⟩
  · show (price exampleMove exampleConfig).total = 625
    rw [hb]
  · show (price exampleMove exampleConfig).total * r = 625 * r
    rw [hb]

/-- Claim C3: for every move and pricing configuration, if the subtotal is
below the configured minimum charge then the breakdown total is the
minimum charge and minimumApplied is set; otherwise the total is the
subtotal and minimumApplied is clear. -/
theorem price_minimum_enforcement (move : Move) (config : PricingConfig) :
    ((price move config).subtotal < config.minimumCharge →
      (price move config).total = config.minimumCharge ∧
        (price move config).minimumApplied = true) ∧
    (config.minimumCharge ≤ (price move config).subtotal →
      (price move config).total = (price move config).subtotal ∧
        (price move config).minimumApplied = false) := by
  unfold price
  dsimp only
  split
  · rename_i h
    exact ⟨fun _ => ⟨rfl, rfl⟩, fun h2 => absurd h (not_lt.mpr h2)⟩
  · rename_i h
    exact ⟨fun h2 => absurd h2 h, fun _ => ⟨rfl, rfl⟩⟩

/-- Claim C3 witness: for the scenario 1 move under a 1000 minimum charge
(subtotal 625), the total is the minimum charge and minimumApplied holds. -/
theorem price_minimum_enforcement_witness :
    (price exampleMove minimumConfig).total = 1000 ∧
    (price exampleMove minimumConfig).minimumApplied = true :=
  (price_minimum_enforcement exampleMove minimumConfig).1 (by
    rw [price_subtotal]
    norm_num [evalRules, surchargeSum, exampleMove, exampleConfig, minimumConfig])

/-- Claim C6: a booking status transition succeeds exactly for the pairs
of the fixed table — PENDING to CONFIRMED to IN_PROGRESS to COMPLETED,
plus CANCELLED from PENDING, CONFIRMED and IN_PROGRESS — and every other
pair fails with an InvalidTransitionError naming both states; in
particular COMPLETED to CONFIRMED fails with exactly that error. -/
theorem transition_table_exact :
    (∀ (b : BookingState) (toStatus : BookingStatus)
        (actorId : Nat) (reason : String),
      (transition b toStatus actorId reason).isOk = true ↔
        (b.status, toStatus) ∈
          ([ (.PENDING, .CONFIRMED), (.CONFIRMED, .IN_PROGRESS),
             (.IN_PROGRESS, .COMPLETED), (.PENDING, .CANCELLED),
             (.CONFIRMED, .CANCELLED), (.IN_PROGRESS, .CANCELLED) ] :
            List (BookingStatus × BookingStatus))) ∧
    (∀ (b : BookingState) (toStatus : BookingStatus)
        (actorId : Nat) (reason : String),
      (b.status, toStatus) ∉
          ([ (.PENDING, .CONFIRMED), (.CONFIRMED, .IN_PROGRESS),
             (.IN_PROGRESS, .COMPLETED), (.PENDING, .CANCELLED),
             (.CONFIRMED, .CANCELLED), (.IN_PROGRESS, .CANCELLED) ] :
            List (BookingStatus × BookingStatus)) →
      transition b toStatus actorId reason = .error ⟨b.status, toStatus⟩) ∧
    (∀ (hist : List HistoryRow) (actorId : Nat) (reason : String),
      transition ⟨.COMPLETED, hist⟩ .CONFIRMED actorId reason =
        .error ⟨.COMPLETED, .CONFIRMED⟩) := by
  refine ⟨?_, ?_, ?_⟩
  · rintro ⟨s, hist⟩ t actorId reason
    cases s <;> cases t <;>
      simp [transition, validTransitions, Except.isOk, Except.toBool]
  · rintro ⟨s, hist⟩ t actorId reason hnot
    unfold transition
    rw [if_neg]
    intro hmem
    exact hnot (by simpa [validTransitions] using hmem)
  · intro hist actorId reason
    simp [transition, validTransitions]

/-- Claim C6 witness: transitioning a COMPLETED booking to CONFIRMED
fails with InvalidTransitionError naming COMPLETED and CONFIRMED. -/
theorem transition_table_exact_witness :
    transition ⟨.COMPLETED, []⟩ .CONFIRMED 0 "retry" =
      .error ⟨.COMPLETED, .CONFIRMED⟩ :=
  transition_table_exact.2.2 [] 0 "retry"

/-- Claim C7: computeRefund selects the refund fraction by the first
matching tier of hoursUntilMove — at least 72 hours gives 1.00, at least
48 gives 0.75, at least 24 gives 0.50, under 24 gives 0.00 — and the
refund amount is the breakdown total times the fraction, rounded to two
decimals. -/
theorem refund_tier_selection (b : CancellableBooking) (now : Int) :
    (72 ≤ hoursUntilMove b now →
      computeRefund b now = ⟨.full, 1, round2 (b.priceTotal * 1)⟩) ∧
    (48 ≤ hoursUntilMove b now → hoursUntilMove b now < 72 →
      computeRefund b now =
        ⟨.threeQuarters, 3/4, round2 (b.priceTotal * (3/4))⟩) ∧
    (24 ≤ hoursUntilMove b now → hoursUntilMove b now < 48 →
      computeRefund b now = ⟨.half, 1/2, round2 (b.priceTotal * (1/2))⟩) ∧
    (hoursUntilMove b now < 24 →
      computeRefund b now = ⟨.none, 0, round2 (b.priceTotal * 0)⟩) ∧
    (computeRefund b now).refundAmount =
      round2 (b.priceTotal * (computeRefund b now).refundFraction) := by
  simp only [computeRefund]
  split_ifs with h1 h2 h3 <;>
    refine ⟨?_, ?_, ?_, ?_, ?_⟩ <;> intros <;> first | rfl | linarith

/-- Claim C7 witness: a booking cancelled 50 hours before its start with
total 725.00 gets refund fraction 0.75 and refund amount 543.75. -/
theorem refund_tier_selection_witness :
    (computeRefund demoBooking 0).refundFraction = 3/4 ∧
    (computeRefund demoBooking 0).refundAmount = 543.75 := by
  have h := (refund_tier_selection demoBooking 0).2.1
    (by norm_num [hoursUntilMove, demoBooking])
    (by norm_num [hoursUntilMove, demoBooking])
  rw [h]
  refine ⟨rfl, ?_⟩
  show round2 (demoBooking.priceTotal * (3/4)) = 543.75
  rw [show demoBooking.priceTotal = 725 from rfl]
  norm_num [round2, round_eq]

/-- Claim C9: the ReviewStep price estimate is undefined on every form
input: the subtotal expression reads the name hourlyCost, which is never
declared (the hourly cost is bound as hourlyC), so the subtotal, platform
fee and total expressions all fail to produce a value. -/
theorem review_step_estimate_undefined (fd : BookingFormData) :
    reviewStepLookup fd "hourlyCost" = Option.none ∧
    reviewStepSubtotal fd = Option.none ∧
    reviewStepPlatformFee fd = Option.none ∧
    reviewStepTotal fd = Option.none := by
  have h : reviewStepLookup fd "hourlyCost" = Option.none := rfl
  have hs : reviewStepSubtotal fd = Option.none := by
    simp [reviewStepSubtotal, h]
  refine ⟨h, hs, ?_, ?_⟩
  · simp [reviewStepPlatformFee, hs]
  · simp [reviewStepTotal, hs]

/-- Claim C10: the Step3Quote quote is a constant function of the booking
data: any two inputs render the identical quote — 600.00 base, 37.50
mileage, 150.00 piano surcharge, 62.50 platform fee, 1250.00 estimated
total. -/
theorem step3_quote_constant :
    (∀ (α β : Type) (d1 : α) (d2 : β), Step3Quote d1 = Step3Quote d2) ∧
    (∀ (α : Type) (d : α),
      Step3Quote d =
        ⟨1250,
          [ ⟨"Base Rate (4 hours)", 600⟩
          , ⟨"Mileage (15 miles)", 37.5⟩
          , ⟨"Piano Surcharge", 150⟩
          , ⟨"Platform Fee", 62.5⟩ ]⟩) := by
  refine ⟨fun α β d1 d2 => rfl, fun α d => ?_⟩
  show QuoteView.mk 1250 _ = QuoteView.mk 1250 _
  norm_num [Step3Quote]

/-- Claim C4: the stairs surcharge applies to pickup and dropoff
independently, exactly when that location has positive floors and no
elevator, at ratePerFlight times the floors of that location; in
particular the scenario 2 move (two pickup flights, no pickup elevator,
50 per flight) incurs a 100 stairs surcharge and totals 725.00. -/
theorem stairs_surcharge_rule :
    (∀ (move : Move) (ratePerFlight baseHourly baseMileage minCharge : Rat),
      (price move ⟨baseHourly, baseMileage, minCharge,
          [⟨.stairs ratePerFlight, true⟩]⟩).surcharges =
        (if 0 < move.pickupFloors ∧ move.hasElevatorPickup = false then
          [⟨"stairs", ratePerFlight * move.pickupFloors, "pickup stairs"⟩]
        else []) ++
        (if 0 < move.dropoffFloors ∧ move.hasElevatorDropoff = false then
          [⟨"stairs", ratePerFlight * move.dropoffFloors, "dropoff stairs"⟩]
        else [])) ∧
    price stairsMove stairsConfig =
      ⟨600, 25, [⟨"stairs", 100, "pickup stairs"⟩], 725, false, 725⟩ := by
  constructor
  · intro move ratePerFlight baseHourly baseMileage minCharge
    rw [price_surcharges]
    simp [evalRules, evalRule, Bool.and_eq_true, decide_eq_true_eq,
      Bool.not_eq_true']
  · norm_num [price, evalRules, evalRule, surchargeSum, stairsMove,
      stairsConfig, exampleMove, exampleConfig]

/-- The special-item evaluation is blind to duplicate items: one rule. -/
theorem evalRule_specialItems_dedup (move : Move) (base running : Rat)
    (items : List String) (k : RuleKind) :
    evalRule { move with specialItems := items.dedup } base running k =
      evalRule { move with specialItems := items } base running k := by
  cases k <;> simp [evalRule, List.dedup_idem]

/-- The special-item evaluation is blind to duplicate items: a rule list. -/
theorem evalRules_specialItems_dedup (move : Move) (base : Rat)
    (rules : List SurchargeRule) (running : Rat) (items : List String) :
    evalRules { move with specialItems := items.dedup } base rules running =
      evalRules { move with specialItems := items } base rules running := by
  induction rules generalizing running with
  | nil => rfl
  | cons r rs ih =>
    simp only [evalRules, evalRule_specialItems_dedup, ih]

/-- Claim C5: the special-item surcharge is charged once per distinct
matching item: the whole price breakdown of a move whose item list holds
duplicates equals the breakdown for the deduplicated list, and the
surcharge amount of a special-item rule is the flat fee times the number
of distinct matching items. -/
theorem special_items_dedup_invariance :
    (∀ (move : Move) (config : PricingConfig) (items : List String),
      price { move with specialItems := items } config =
        price { move with specialItems := items.dedup } config) ∧
    (∀ (move : Move) (base running feePerItem : Rat) (ruleItems : List String),
      surchargeSum (evalRule move base running
          (.specialItem ruleItems feePerItem)) =
        feePerItem * ((move.specialItems.dedup.filter
          (fun i => ruleItems.contains i)).length : Rat)) := by
  constructor
  · intro move config items
    simp only [price, evalRules_specialItems_dedup]
  · intro move base running feePerItem ruleItems
    simp only [evalRule]
    split
    · rename_i h
      rw [List.isEmpty_iff] at h
      rw [h]
      simp [surchargeSum]
    · simp [surchargeSum]

/-- Claim C8: the booking form schema rejects a malformed move
description: whenever the full validation predicate accepts, the
estimated distance and duration are positive and the move date is not in
the past — pricing preconditions guaranteed before any pricing runs. -/
theorem booking_validation_preconditions (emailOk : String → Bool)
    (now : Int) (fd : BookingFormData)
    (h : bookingFormValid emailOk now fd = true) :
    0 < fd.estimated_distance_miles ∧ 0 < fd.estimated_duration_hours ∧
      now ≤ fd.move_date := by
  simp only [bookingFormValid, Bool.and_eq_true, decide_eq_true_eq] at h
  tauto

/-- Claim C8 witness: a well-formed demo input passes validation and the
theorem extracts its pricing preconditions. -/
theorem booking_validation_preconditions_witness :
    bookingFormValid (fun _ => true) 0 demoForm = true ∧
    (0 < demoForm.estimated_distance_miles ∧
      0 < demoForm.estimated_duration_hours ∧
      (0 : Int) ≤ demoForm.move_date) := by
  have hv : bookingFormValid (fun _ => true) 0 demoForm = true := by decide
  exact ⟨hv, booking_validation_preconditions (fun _ => true) 0 demoForm hv⟩

/-- Overlapping of effective windows is symmetric. -/
theorem windowsOverlap_comm (v w : TimeWindow) :
    windowsOverlap v w = windowsOverlap w v := by
  simp [windowsOverlap, Bool.and_comm]

/-- A successful `reserve` preserves the ConflictGuard invariant. -/
theorem reserve_ok_noConflicts {s u : List Reservation} {r : Reservation}
    (hok : reserve s r = .ok u) (hs : NoConflicts s) : NoConflicts u := by
  unfold reserve at hok
  cases hres : r.resourceId with
  | none =>
    rw [hres] at hok
    cases hok
    intro a ha b hb hab rid hra hrb
    rcases List.mem_cons.mp ha with rfl | ha'
    · rw [hres] at hra
      exact absurd hra (by simp)
    · rcases List.mem_cons.mp hb with rfl | hb'
      · rw [hres] at hrb
        exact absurd hrb (by simp)
      · exact hs a ha' b hb' hab rid hra hrb
  | some rid0 =>
    rw [hres] at hok
    dsimp only at hok
    by_cases hc : (s.filter (conflictsWith rid0 r.window)).isEmpty
    · rw [if_pos hc] at hok
      cases hok
      rw [List.isEmpty_iff, List.filter_eq_nil_iff] at hc
      intro a ha b hb hab rid hra hrb
      rcases List.mem_cons.mp ha with rfl | ha'
      · rcases List.mem_cons.mp hb with rfl | hb'
        · exact absurd rfl hab
        · have hcb := hc b hb'
          rw [Bool.not_eq_true] at hcb
          unfold conflictsWith at hcb
          rw [hrb] at hcb
          have : rid0 = rid := by
            rw [hres] at hra
            exact Option.some.inj hra
          subst this
          simpa using hcb
      · rcases List.mem_cons.mp hb with rfl | hb'
        · have hca := hc a ha'
          rw [Bool.not_eq_true] at hca
          unfold conflictsWith at hca
          rw [hra] at hca
          have : rid0 = rid := by
            rw [hres] at hrb
            exact Option.some.inj hrb
          subst this
          rw [windowsOverlap_comm]
          simpa using hca
        · exact hs a ha' b hb' hab rid hra hrb
    · rw [if_neg hc] at hok
      cases hok

/-- `release` preserves the ConflictGuard invariant. -/
theorem release_noConflicts {s : List Reservation} {id : Nat}
    (hs : NoConflicts s) : NoConflicts (release s id) :=
  fun a ha b hb =>
    hs a (List.mem_of_mem_filter ha) b (List.mem_of_mem_filter hb)

/-- Every state the guard reaches from an invariant-satisfying state
satisfies the invariant. -/
theorem guardReach_noConflicts {s t : List Reservation}
    (h : GuardReach s t) (hs : NoConflicts s) : NoConflicts t := by
  induction h with
  | refl => exact hs
  | reserveStep r h hok ih => exact reserve_ok_noConflicts hok ih
  | releaseStep id h ih => exact release_noConflicts ih

/-- Claim C1: in every guard state reachable from the empty reservation
set, the effective windows of two distinct reservations on the same
resource never overlap: for closed-open effective intervals,
`a.start < b.end && b.start < a.end` is false. -/
theorem guard_reserved_windows_never_overlap
    (s : List Reservation) (hreach : GuardReach [] s)
    (a b : Reservation) (ha : a ∈ s) (hb : b ∈ s) (hab : a ≠ b)
    (rid : Nat) (hra : a.resourceId = some rid)
    (hrb : b.resourceId = some rid) :
    (a.window.effectiveStart < b.window.effectiveEnd &&
      b.window.effectiveStart < a.window.effectiveEnd) = false :=
  guardReach_noConflicts hreach
    (fun x hx => absurd hx (List.not_mem_nil x)) a ha b hb hab rid hra hrb

/-- Claim C1 witness: reserving truck 7 for two disjoint windows in
sequence succeeds, and the resulting pair of reservations has
non-overlapping effective windows. -/
theorem guard_reserved_windows_never_overlap_witness :
    GuardReach [] [demoRes2, demoRes1] ∧
    (demoRes1.window.effectiveStart < demoRes2.window.effectiveEnd &&
      demoRes2.window.effectiveStart < demoRes1.window.effectiveEnd)
      = false := by
  have h1 : reserve [] demoRes1 = .ok [demoRes1] := rfl
  have h2 : reserve [demoRes1] demoRes2 = .ok [demoRes2, demoRes1] := rfl
  have hreach : GuardReach [] [demoRes2, demoRes1] :=
    .reserveStep demoRes2 (.reserveStep demoRes1 (.refl []) h1) h2
  refine ⟨hreach, guard_reserved_windows_never_overlap _ hreach
    demoRes1 demoRes2 ?_ ?_ ?_ 7 rfl rfl⟩
  · simp [demoRes1, demoRes2]
  · simp [demoRes1, demoRes2]
  · simp [demoRes1, demoRes2]

end MoveHub
